import Mathlib

/-!
Shallow embedding of the ZN3 PrayerBot core (src/PrayerBot.py and src/test.py).

Modelling conventions:
* Logical days (the `"%d/%m/%y"`-formatted date strings of the source) are
  modelled as integers; the format is injective day-by-day, so equality of
  the strings is equality of the day numbers, and "yesterday" is `today - 1`.
* Streak counters are `Int` (the SQL `INTEGER` columns); nullable columns are
  `Option`.
* Message texts entering `handle_message` are modelled as `List Char`, already
  stripped (the source strips them first thing); digits are ASCII digits.
* Definitions prefixed `PB_` embed src/PrayerBot.py, `TB_` embed src/test.py;
  unprefixed ones embed code identical in both files.
-/

/-- The streak-relevant part of a `users` row:
`(current_streak, longest_streak, last_date)`. -/
structure StreakState where
  current_streak : Int
  longest_streak : Int
  last_date : Option Int
deriving DecidableEq

/-- A full `users` row of src/PrayerBot.py:
`(name, current_streak, longest_streak, last_date, reminder_hour,
reminder_minute, cancelled_date)`. -/
structure UserRec where
  name : String
  current_streak : Int
  longest_streak : Int
  last_date : Option Int
  reminder_hour : Option Nat
  reminder_minute : Option Nat
  cancelled_date : Option Int
deriving DecidableEq

/-- A full `users` row of src/test.py (it has no `cancelled_date` column). -/
structure TBUserRec where
  name : String
  current_streak : Int
  longest_streak : Int
  last_date : Option Int
  reminder_hour : Option Nat
  reminder_minute : Option Nat
deriving DecidableEq

/-- Python `s or d` for strings: `d` when `s` is falsy (empty). -/
def py_name_or (s d : String) : String := if s = "" then d else s

/-- The streak transition of the completion handlers
(src/PrayerBot.py `handle_message`, lines 473-480, and src/test.py
`button_handler`, lines 391-397; the two are identical):
same day keeps `current`, consecutive day increments it, any gap resets to 1;
then `longest = max(longest, current)` and `last_date = today` are always
written back. -/
def recordCompletion (s : StreakState) (today : Int) : StreakState :=
  let current :=
    if s.last_date = some today then s.current_streak
    else if s.last_date = some (today - 1) then s.current_streak + 1
    else 1
  let longest := max s.longest_streak current
  { current_streak := current, longest_streak := longest,
    last_date := some today }

/-- Modelled from the spec words (section 4.1, `RecordCompletion`) for the
refinement comparison of C1: the same-day case is a complete no-op; only the
non-no-op cases update `longest_streak` and `last_completed_day`. -/
def recordCompletionSpec (s : StreakState) (today : Int) : StreakState :=
  if s.last_date = some today then s
  else
    let current :=
      if s.last_date = some (today - 1) then s.current_streak + 1 else 1
    { current_streak := current, longest_streak := max s.longest_streak current,
      last_date := some today }

/-- Per-user body of src/PrayerBot.py `nightly_reset_job` (lines 345-358):
if `last_date != yesterday and current > 0`, write back
`(name or "friend", 0, longest, last_date)` and send the streak-broken
message; afterwards, if `cancelled_date == today`, clear it.  Returns the new
row and whether the streak-broken notification was emitted. -/
def nightly_user_step (r : UserRec) (today : Int) : UserRec × Bool :=
  let yesterday := today - 1
  let broke : Prop := r.last_date ≠ some yesterday ∧ 0 < r.current_streak
  let r1 :=
    if broke then
      { r with name := py_name_or r.name "friend", current_streak := 0 }
    else r
  let r2 :=
    if r1.cancelled_date = some today then { r1 with cancelled_date := none }
    else r1
  (r2, if broke then true else false)

/-- src/PrayerBot.py `ensure_user_record` (lines 83-92):
`INSERT ... VALUES (uid, name, 0, 0, NULL, 8, 0, NULL) ON CONFLICT DO
NOTHING`, modelled on the single row of the acting user (`none` = row
absent). -/
def PB_ensure_user_record (row : Option UserRec) (n : String) : UserRec :=
  match row with
  | some r => r
  | none =>
    { name := n, current_streak := 0, longest_streak := 0, last_date := none,
      reminder_hour := some 8, reminder_minute := some 0,
      cancelled_date := none }

/-- src/test.py `ensure_user_record` (lines 85-94):
`INSERT ... VALUES (uid, name, 0, 0, NULL, NULL, NULL) ON CONFLICT (user_id)
DO UPDATE SET name = EXCLUDED.name`. -/
def TB_ensure_user_record (row : Option TBUserRec) (n : String) : TBUserRec :=
  match row with
  | some r => { r with name := n }
  | none =>
    { name := n, current_streak := 0, longest_streak := 0, last_date := none,
      reminder_hour := none, reminder_minute := none }

/-- Effects of the `awaiting_revelation` branch of src/PrayerBot.py
`handle_message` (lines 469-491): apply the streak transition and write the
row back with the sender's name, set the runtime `user_qt_done` flag, and
cancel the pending follow-up job. -/
structure CompletionEffects where
  row : UserRec
  qt_done : Bool
  followup_cancelled : Bool
deriving DecidableEq

def revelation_step (r : UserRec) (n : String) (today : Int) :
    CompletionEffects :=
  let s :=
    recordCompletion
      ⟨r.current_streak, r.longest_streak, r.last_date⟩ today
  { row := { r with
      name := n,
      current_streak := s.current_streak,
      longest_streak := s.longest_streak,
      last_date := s.last_date },
    qt_done := true, followup_cancelled := true }

/-- Python `text.split(":")` on a character list. -/
def splitColon : List Char → List (List Char)
  | [] => [[]]
  | c :: rest =>
    if c = ':' then [] :: splitColon rest
    else
      match splitColon rest with
      | [] => [[c]]
      | g :: gs => (c :: g) :: gs

/-- Python `p.isdigit() and int(p)` in one step: `some` of the decimal value
when the string is non-empty and all ASCII digits, else `none`. -/
def digitsToNat? (s : List Char) : Option Nat :=
  if s ≠ [] ∧ s.all Char.isDigit then
    some (s.foldl (fun n c => n * 10 + (c.toNat - 48)) 0)
  else none

/-- Parse of the `awaiting_reminder_input` branch of src/PrayerBot.py
`handle_message` (lines 455-459): split on `":"`, require exactly two
all-digit parts, convert with `int`. -/
def PB_parse_colon (t : List Char) : Option (Nat × Nat) :=
  match splitColon t with
  | [a, b] =>
    match digitsToNat? a, digitsToNat? b with
    | some h, some m => some (h, m)
    | _, _ => none
  | _ => none

/-- src/test.py `smart_format_hhmm` (lines 454-465): text containing a colon
passes through; an all-digit text of length 4 becomes `HH:MM`, of length 3
becomes `0H:MM`; anything else yields `None`.  Input is the already-stripped
message text. -/
def smart_format_hhmm (t : List Char) : Option (List Char) :=
  if t.any (fun c => c = ':') then some t
  else if t ≠ [] ∧ t.all Char.isDigit then
    if t.length = 4 then some (t.take 2 ++ ':' :: t.drop 2)
    else if t.length = 3 then some ('0' :: t.take 1 ++ ':' :: t.drop 1)
    else none
  else none

/-- Outcome reported to the user by the reminder-time input branch.
`err_format` is the invalid-format message, `err_cutoff` the
"choose a time before 23:30" message (src/PrayerBot.py uses the latter for
out-of-range values as well). -/
inductive TimeInputResult where
  | err_format
  | err_cutoff
  | accepted (h m : Nat)
deriving DecidableEq

/-- The `awaiting_reminder_input` branch of src/PrayerBot.py `handle_message`
(lines 454-467), acting on the stored reminder time: returns the new stored
reminder, whether the user is still in the awaiting-reminder state, and the
reported outcome. -/
def PB_reminder_step (stored : Option (Nat × Nat)) (t : List Char) :
    Option (Nat × Nat) × Bool × TimeInputResult :=
  match PB_parse_colon t with
  | none => (stored, true, .err_format)
  | some (h, m) =>
    if ¬(h ≤ 23 ∧ m ≤ 59) ∨ (h = 23 ∧ 30 ≤ m) then
      (stored, true, .err_cutoff)
    else (some (h, m), false, .accepted h m)

/-- The `awaiting_reminder_input` branch of src/test.py `handle_message`
(lines 475-503): `smart_format_hhmm` first, then the same split/digit/range
checks (range violations report the format error there, only the 23:30 rule
reports the cutoff error). -/
def TB_reminder_step (stored : Option (Nat × Nat)) (t : List Char) :
    Option (Nat × Nat) × Bool × TimeInputResult :=
  match smart_format_hhmm t with
  | none => (stored, true, .err_format)
  | some auto =>
    match splitColon auto with
    | [a, b] =>
      match digitsToNat? a, digitsToNat? b with
      | some h, some m =>
        if ¬(h ≤ 23 ∧ m ≤ 59) then (stored, true, .err_format)
        else if h = 23 ∧ 30 ≤ m then (stored, true, .err_cutoff)
        else (some (h, m), false, .accepted h m)
      | _, _ => (stored, true, .err_format)
    | _ => (stored, true, .err_format)

/-- src/PrayerBot.py `compute_next_dt` (lines 290-295) at minute granularity:
the next occurrence of `h:m` after the instant `nowDay@nowH:nowM` — today if
`h:m` is strictly later in the day, else tomorrow (the source compares full
timestamps; at whole minutes `candidate <= now` is `h:m <= nowH:nowM`). -/
def compute_next_dt (nowDay : Int) (nowH nowM h m : Nat) :
    Int × Nat × Nat :=
  if nowH * 60 + nowM < h * 60 + m then (nowDay, h, m)
  else (nowDay + 1, h, m)

/-- Result of a firing of src/PrayerBot.py `nudge_job_once` (lines 304-326):
whether the reminder message was sent, and the `(hour, minute)` the nudge was
re-armed with via `schedule_user_reminder` (`none` when the job returned
without re-arming). -/
structure NudgeFire where
  sent : Bool
  rearmed : Option (Nat × Nat)
deriving DecidableEq

/-- src/PrayerBot.py `nudge_job_once`: missing row returns silently; a row
with `cancelled_date == today` suppresses the send but still re-arms; any
other row gets the reminder message and the re-arm.  `h, m` are the job's
`data` payload (always set by `schedule_user_reminder`).  The job never
consults the done-today state before sending. -/
def nudge_job_once (row : Option UserRec) (today : Int) (h m : Nat) :
    NudgeFire :=
  match row with
  | none => { sent := false, rearmed := none }
  | some r =>
    if r.cancelled_date = some today then
      { sent := false, rearmed := some (h, m) }
    else { sent := true, rearmed := some (h, m) }

/-- src/PrayerBot.py `reminder_followup` (lines 328-335): the follow-up sends
its message only when the runtime done-today flag `user_qt_done[uid]` is
still false; it always clears its job entry.  Returns whether it sent. -/
def reminder_followup (qt_done : Bool) : Bool :=
  !qt_done

/-- User rows reachable from the implicit provisioning of a first contact
through the operations that write streak state: completion recording
(`revelation_step`) and day-rollover reconciliation (`nightly_user_step`). -/
inductive ReachableRec : UserRec → Prop where
  | provision (n : String) : ReachableRec (PB_ensure_user_record none n)
  | complete (r : UserRec) (n : String) (d : Int) :
      ReachableRec r → ReachableRec (revelation_step r n d).row
  | rollover (r : UserRec) (d : Int) :
      ReachableRec r → ReachableRec (nightly_user_step r d).1

/-- src/PrayerBot.py `streak_visual` (lines 256-259):
`r = streak % 7 or 7 if streak > 0 else 0`, then `r` fire emoji followed by
`7 - r` white circles (src/test.py lines 198-203 is the same computation
written out). -/
def streak_visual (streak : Int) : List Char :=
  let r : Nat :=
    if 0 < streak then
      (if streak % 7 = 0 then 7 else (streak % 7).toNat)
    else 0
  List.replicate r '🔥' ++ List.replicate (7 - r) '⚪'

/-- C1 counterexample: on a stored state violating the
`current_streak ≤ longest_streak` invariant (here `current = 5 > 3 =
longest`) with `last_date = today`, the code still executes
`longest = max(longest, current)` and so changes the state, while the spec's
reference definition makes the same-day case a strict no-op. -/
theorem claim_C1_counterexample :
    recordCompletion ⟨5, 3, some 10⟩ 10 ≠
      recordCompletionSpec ⟨5, 3, some 10⟩ 10 := by decide

/-- C1 (amended): for every stored state satisfying the invariant
`current_streak ≤ longest_streak`, the completion transition of the code
matches the spec's reference `RecordCompletion`: same day is a no-op,
`last_date = today - 1` increments `current_streak`, any other history resets
it to 1, and the non-no-op cases set `longest = max(longest, current)` and
`last_date = today`. -/
theorem claim_C1_record_completion_refines_spec (s : StreakState)
    (today : Int) (hinv : s.current_streak ≤ s.longest_streak) :
    recordCompletion s today = recordCompletionSpec s today := by
  obtain ⟨c, l, ld⟩ := s
  unfold recordCompletion recordCompletionSpec
  by_cases h : ld = some today
  · simp_all [max_eq_left hinv]
  · simp [h]

/-- C1 witness: a consecutive-day completion on a state satisfying the
invariant, where code and spec agree. -/
theorem claim_C1_record_completion_refines_spec_witness :
    recordCompletion ⟨3, 5, some 1⟩ 2 = recordCompletionSpec ⟨3, 5, some 1⟩ 2 :=
  claim_C1_record_completion_refines_spec ⟨3, 5, some 1⟩ 2 (by decide)

/-- C2 counterexample: a user whose `last_date` is yesterday (so no streak
break) but whose `cancelled_date` equals today does have their stored row
changed by the rollover job — the cancellation flag is cleared — refuting
"in every other case it leaves the user's stored state unchanged". -/
theorem claim_C2_counterexample :
    (nightly_user_step ⟨"a", 1, 1, some 0, some 8, some 0, some 1⟩ 1).2
        = false ∧
    (nightly_user_step ⟨"a", 1, 1, some 0, some 8, some 0, some 1⟩ 1).1 ≠
      ⟨"a", 1, 1, some 0, some 8, some 0, some 1⟩ := by decide

/-- C2 (amended): the day-rollover job, per known user: if `last_date` is not
yesterday and `current_streak > 0`, it sets `current_streak` to 0, leaves
`longest_streak` and `last_date` unchanged, and emits the streak-broken
notification; otherwise it leaves the streak fields and reminder time
unchanged and emits no notification.  Independently of the streak condition,
`cancelled_date` is cleared exactly when it equals today. -/
theorem claim_C2_nightly_reconcile (r : UserRec) (today : Int) :
    (r.last_date ≠ some (today - 1) ∧ 0 < r.current_streak →
      (nightly_user_step r today).1.current_streak = 0 ∧
      (nightly_user_step r today).1.longest_streak = r.longest_streak ∧
      (nightly_user_step r today).1.last_date = r.last_date ∧
      (nightly_user_step r today).2 = true) ∧
    (¬(r.last_date ≠ some (today - 1) ∧ 0 < r.current_streak) →
      (nightly_user_step r today).1.current_streak = r.current_streak ∧
      (nightly_user_step r today).1.longest_streak = r.longest_streak ∧
      (nightly_user_step r today).1.last_date = r.last_date ∧
      (nightly_user_step r today).1.reminder_hour = r.reminder_hour ∧
      (nightly_user_step r today).1.reminder_minute = r.reminder_minute ∧
      (nightly_user_step r today).2 = false) ∧
    (nightly_user_step r today).1.cancelled_date =
      (if r.cancelled_date = some today then none else r.cancelled_date) := by
  unfold nightly_user_step
  by_cases hb : r.last_date ≠ some (today - 1) ∧ 0 < r.current_streak <;>
    by_cases hc : r.cancelled_date = some today <;>
      simp [hb, hc]

/-- C2 witness: a user who last completed long ago with a positive streak has
it reset to 0, the longest streak kept, and the notification emitted. -/
theorem claim_C2_nightly_reconcile_witness :
    (nightly_user_step ⟨"b", 2, 5, some 0, some 8, some 0, none⟩ 5).1.current_streak
        = 0 ∧
    (nightly_user_step ⟨"b", 2, 5, some 0, some 8, some 0, none⟩ 5).1.longest_streak
        = 5 ∧
    (nightly_user_step ⟨"b", 2, 5, some 0, some 8, some 0, none⟩ 5).2 = true :=
  let h :=
    (claim_C2_nightly_reconcile ⟨"b", 2, 5, some 0, some 8, some 0, none⟩ 5).1
      (by decide)
  ⟨h.1, h.2.1, h.2.2.2⟩

/-- C5: when the nudge fires for a user whose `cancelled_date` equals today,
nothing is sent, yet the nudge is re-armed with the same hour and minute, and
`compute_next_dt` evaluated at the firing instant places that re-armed nudge
on the next day at the same time. -/
theorem claim_C5_cancelled_skip (r : UserRec) (today : Int) (h m : Nat)
    (hc : r.cancelled_date = some today) :
    (nudge_job_once (some r) today h m).sent = false ∧
    (nudge_job_once (some r) today h m).rearmed = some (h, m) ∧
    compute_next_dt today h m h m = (today + 1, h, m) := by
  unfold nudge_job_once compute_next_dt
  simp [hc]

/-- C5 witness: a concrete cancelled-today user at an 08:00 nudge. -/
theorem claim_C5_cancelled_skip_witness :
    (nudge_job_once (some ⟨"a", 0, 0, none, some 8, some 0, some 3⟩) 3 8 0).sent
        = false ∧
    (nudge_job_once (some ⟨"a", 0, 0, none, some 8, some 0, some 3⟩) 3 8 0).rearmed
        = some (8, 0) ∧
    compute_next_dt 3 8 0 8 0 = (4, 8, 0) :=
  claim_C5_cancelled_skip ⟨"a", 0, 0, none, some 8, some 0, some 3⟩ 3 8 0
    (by decide)

/-- C6 counterexample: a user completes on day 5 (the completion step records
`last_date = today` and sets the done-today flag), is not cancelled, and
their 21:00 nudge then fires on day 5: the nudge still sends — the nudge job
performs no done-today check at all. -/
theorem claim_C6_counterexample :
    (revelation_step ⟨"a", 0, 0, none, some 21, some 0, none⟩ "a" 5).qt_done
        = true ∧
    (nudge_job_once
        (some (revelation_step ⟨"a", 0, 0, none, some 21, some 0, none⟩ "a" 5).row)
        5 21 0).sent = true := by decide

/-- C6 (amended): only the follow-up timer respects recorded completion:
recording a completion sets the runtime done-today flag and cancels any
pending follow-up, and a follow-up that fires with the flag set sends
nothing; the nudge timer makes no completion check and may still send its
daily reminder that day. -/
theorem claim_C6_followup_respects_completion (r : UserRec) (n : String)
    (today : Int) :
    (revelation_step r n today).qt_done = true ∧
    (revelation_step r n today).followup_cancelled = true ∧
    reminder_followup true = false :=
  ⟨rfl, rfl, rfl⟩

/-- C7 counterexample: src/PrayerBot.py provisions an unknown user with the
default reminder time 08:00, not with the reminder time unset. -/
theorem claim_C7_counterexample :
    (PB_ensure_user_record none "x").reminder_hour = some 8 ∧
    (PB_ensure_user_record none "x").reminder_minute = some 0 ∧
    (PB_ensure_user_record none "x").reminder_hour ≠ none := by decide

/-- C7 (amended): on first contact from an unknown user, a record is created
with `current_streak = 0`, `longest_streak = 0`, no `last_date` and no
cancellation; src/PrayerBot.py sets the default reminder time 08:00, while
src/test.py leaves the reminder time unset. -/
theorem claim_C7_provisioning (n : String) :
    PB_ensure_user_record none n =
      ⟨n, 0, 0, none, some 8, some 0, none⟩ ∧
    TB_ensure_user_record none n = ⟨n, 0, 0, none, none, none⟩ :=
  ⟨rfl, rfl⟩

/-- C10: re-running `ensure_user_record` for a user who already has a row
never touches the streak fields, the reminder time or the cancellation flag:
src/PrayerBot.py's `ON CONFLICT DO NOTHING` leaves the row fully unchanged,
and src/test.py's `ON CONFLICT DO UPDATE SET name` changes only the display
name. -/
theorem claim_C10_ensure_preserves_existing (r : UserRec) (s : TBUserRec)
    (n : String) :
    PB_ensure_user_record (some r) n = r ∧
    (TB_ensure_user_record (some s) n).current_streak = s.current_streak ∧
    (TB_ensure_user_record (some s) n).longest_streak = s.longest_streak ∧
    (TB_ensure_user_record (some s) n).last_date = s.last_date ∧
    (TB_ensure_user_record (some s) n).reminder_hour = s.reminder_hour ∧
    (TB_ensure_user_record (some s) n).reminder_minute = s.reminder_minute ∧
    (TB_ensure_user_record (some s) n).name = n :=
  ⟨rfl, rfl, rfl, rfl, rfl, rfl, rfl⟩

/-- C3: in the awaiting-reminder-time state, a text that parses as `H:M`
(two all-digit colon-separated parts) is accepted exactly when `H ≤ 23`,
`M ≤ 59` and `(H, M)` is strictly before 23:30; on rejection the error is
reported, the stored reminder is unchanged and the user stays in the
awaiting state; on acceptance the new time is persisted and the awaiting
state is left.  Unparseable text likewise reports an error and changes
nothing. -/
theorem claim_C3_time_validation (stored : Option (Nat × Nat)) (t : List Char) :
    (∀ h m, PB_parse_colon t = some (h, m) →
      ((PB_reminder_step stored t =
          (some (h, m), false, TimeInputResult.accepted h m)) ↔
        (h ≤ 23 ∧ m ≤ 59 ∧ (h < 23 ∨ m < 30))) ∧
      (¬(h ≤ 23 ∧ m ≤ 59 ∧ (h < 23 ∨ m < 30)) →
        PB_reminder_step stored t = (stored, true, .err_cutoff))) ∧
    (PB_parse_colon t = none →
      PB_reminder_step stored t = (stored, true, .err_format)) := by
  constructor
  · intro h m hp
    have hstep : PB_reminder_step stored t =
        if ¬(h ≤ 23 ∧ m ≤ 59) ∨ (h = 23 ∧ 30 ≤ m) then
          (stored, true, TimeInputResult.err_cutoff)
        else (some (h, m), false, TimeInputResult.accepted h m) := by
      unfold PB_reminder_step
      rw [hp]
    rw [hstep]
    by_cases hv : ¬(h ≤ 23 ∧ m ≤ 59) ∨ (h = 23 ∧ 30 ≤ m)
    · rw [if_pos hv]
      refine ⟨⟨fun he => ?_, fun hvalid => absurd hvalid (by omega)⟩,
        fun _ => rfl⟩
      simp [Prod.ext_iff] at he
    · rw [if_neg hv]
      exact ⟨⟨fun _ => by omega, fun _ => rfl⟩,
        fun hnv => absurd (by omega) hnv⟩
  · intro hp
    have hstep : PB_reminder_step stored t =
        (stored, true, TimeInputResult.err_format) := by
      unfold PB_reminder_step
      rw [hp]
    exact hstep

/-- C3 witness: `23:29`, the largest allowed time, is accepted, persisted,
and the awaiting state is left. -/
theorem claim_C3_time_validation_witness :
    PB_reminder_step none ['2','3',':','2','9'] =
      (some (23, 29), false, TimeInputResult.accepted 23 29) :=
  (((claim_C3_time_validation none ['2','3',':','2','9']).1 23 29
      (by decide)).1).mpr (by decide)

/-- C4: compact all-digit input is right-to-left padded before validation:
a 4-digit text `HHMM` is read as `HH:MM` and a 3-digit text `HMM` as
`0H:MM`; concretely, `"2130"` is parsed as 21:30 and accepted, while
`"2345"` is parsed as 23:45 and rejected with the time-cutoff error. -/
theorem claim_C4_compact_digit_parse :
    (∀ t : List Char, t.all Char.isDigit → t ≠ [] →
      (t.length = 4 →
        smart_format_hhmm t = some (t.take 2 ++ ':' :: t.drop 2)) ∧
      (t.length = 3 →
        smart_format_hhmm t = some ('0' :: t.take 1 ++ ':' :: t.drop 1))) ∧
    (∀ stored, TB_reminder_step stored ['2','1','3','0'] =
        (some (21, 30), false, TimeInputResult.accepted 21 30)) ∧
    (∀ stored, TB_reminder_step stored ['2','3','4','5'] =
        (stored, true, TimeInputResult.err_cutoff)) := by
  refine ⟨?_, fun stored => rfl, fun stored => rfl⟩
  intro t hdig hne
  have hnc : t.any (fun c => c = ':') = false := by
    rw [List.any_eq_false]
    intro c hc
    have := List.all_eq_true.mp hdig c hc
    simp only [decide_eq_true_eq]
    intro h
    rw [h] at this
    exact absurd this (by decide)
  unfold smart_format_hhmm
  rw [hnc]
  simp only [Bool.false_eq_true, if_false, hne, hdig, and_true,
    ne_eq, not_false_iff, if_true]
  constructor
  · intro hl
    simp [hl]
  · intro hl
    simp [hl]

/-- C4 witness: the 4-digit text `0815` is padded to `08:15`, and `2130`
is accepted end-to-end as 21:30. -/
theorem claim_C4_compact_digit_parse_witness :
    smart_format_hhmm ['0','8','1','5'] = some ['0','8',':','1','5'] ∧
    TB_reminder_step none ['2','1','3','0'] =
      (some (21, 30), false, TimeInputResult.accepted 21 30) :=
  ⟨(claim_C4_compact_digit_parse.1 ['0','8','1','5'] (by decide)
      (by decide)).1 (by decide),
    claim_C4_compact_digit_parse.2.1 none⟩

/-- C8: for every non-negative streak the visual is exactly 7 segments long,
with `streak mod 7` of them filled, except that a remainder of 0 on a
positive streak fills all 7; in particular streak 7 shows 7 filled, streak 8
shows 1, and streak 0 shows 0. -/
theorem claim_C8_streak_visual (n : Nat) :
    (streak_visual n).length = 7 ∧
    (streak_visual n).count '🔥' =
      (if 0 < n ∧ n % 7 = 0 then 7 else n % 7) ∧
    (streak_visual 7).count '🔥' = 7 ∧
    (streak_visual 8).count '🔥' = 1 ∧
    (streak_visual 0).count '🔥' = 0 := by
  refine ⟨?_, ?_, by decide, by decide, by decide⟩
  · unfold streak_visual
    have h1 : ((n : Int) % 7).toNat ≤ 7 := by omega
    split_ifs <;> simp_all
  · unfold streak_visual
    by_cases hn : (0 : Int) < (n : Int)
    · by_cases h7 : (n : Int) % 7 = 0
      · rw [if_pos hn, if_pos h7]
        have : 0 < n ∧ n % 7 = 0 := by omega
        simp [List.count_append, List.count_replicate, this]
      · rw [if_pos hn, if_neg h7]
        have hc : ¬(0 < n ∧ n % 7 = 0) := by omega
        have ht : ((n : Int) % 7).toNat = n % 7 := by omega
        simp [List.count_append, List.count_replicate, hc, ht]
    · rw [if_neg hn]
      have : n = 0 := by omega
      simp [this]

/-- Auxiliary invariant for C9: every reachable row has a non-negative
current streak bounded by the longest streak. -/
theorem reachable_streak_bounds (r : UserRec) (h : ReachableRec r) :
    0 ≤ r.current_streak ∧ r.current_streak ≤ r.longest_streak := by
  induction h with
  | provision n => exact ⟨le_refl 0, le_refl 0⟩
  | complete r n d hr ih =>
    obtain ⟨ih0, ih1⟩ := ih
    unfold revelation_step recordCompletion
    constructor
    · simp only
      split_ifs <;> omega
    · simp only
      exact le_max_right _ _
  | rollover r d hr ih =>
    obtain ⟨ih0, ih1⟩ := ih
    unfold nightly_user_step
    by_cases hb : r.last_date ≠ some (d - 1) ∧ 0 < r.current_streak <;>
      by_cases hc : r.cancelled_date = some d <;>
        simp [hb, hc] <;> omega

/-- C9: `current_streak ≤ longest_streak` holds for every row reachable from
first-contact provisioning through any sequence of completion recordings and
day-rollover reconciliations. -/
theorem claim_C9_invariant (r : UserRec) (h : ReachableRec r) :
    r.current_streak ≤ r.longest_streak :=
  (reachable_streak_bounds r h).2

/-- C9 witness: the freshly provisioned record satisfies the invariant. -/
theorem claim_C9_invariant_witness :
    (PB_ensure_user_record none "x").current_streak ≤
      (PB_ensure_user_record none "x").longest_streak :=
  claim_C9_invariant _ (ReachableRec.provision "x")
